import Mathlib

/-!
Shallow embedding of the post validation and persistence workflow of the
CRUD blog demo (src/controllers/postController.mjs, src/routes/postRoutes.mjs,
src/server.mjs), together with theorems checking the specification's claims
about it.

Conventions of the embedding:
* JavaScript strings are modelled by Lean `String`; `.length` counts
  characters (code points), which agrees with the source for the inputs at
  stake in the claims.
* `req.body.title` / `req.body.body` values of unknown type are modelled by
  `RawValue`: a string, an absent field (`undefined`), or any non-string
  value; `typeof x === "string" ? x.trim() : ""` becomes `coerceInput`.
* JavaScript `String.prototype.trim` is modelled by `jsTrim` (drop leading
  and trailing whitespace characters).
* The MongoDB collection behind Mongoose is modelled by `Store`: an
  association list of ids to documents plus a counter supplying fresh ids
  (standing in for ObjectId generation).  `findById`, `save`,
  `findByIdAndUpdate { new: true }` and `findByIdAndDelete` are modelled on
  the happy path (no transport failure), which is all the claims quantify
  over.
* Each handler returns the new store state paired with the single response
  it emits (`Response`).
-/

namespace Crud

/-- A raw form-field value as seen by the controller: a string, an absent
field, or some non-string value (array, object, number, ...). -/
inductive RawValue where
  | str (s : String)
  | absent
  | nonString
deriving DecidableEq, Repr

/-- Model of JavaScript `String.prototype.trim`: remove leading and trailing
whitespace characters. -/
def jsTrim (s : String) : String :=
  String.mk (((s.data.dropWhile Char.isWhitespace).reverse.dropWhile
    Char.isWhitespace).reverse)

/-- Coercion step `typeof v === "string" ? v.trim() : ""` applied to
both `title` and `body` in `createPost` and `updatePost`
(src/controllers/postController.mjs lines 54-57 and 127-130). -/
def coerceInput : RawValue → String
  | RawValue.str s => jsTrim s
  | RawValue.absent => ""
  | RawValue.nonString => ""

/-- Error message pushed when the trimmed title is empty. -/
def msgTitleRequired : String := "Title is required."

/-- Error message pushed when the trimmed body is empty. -/
def msgBodyRequired : String := "Body is required."

/-- Error message pushed when the trimmed title exceeds 200 characters. -/
def msgTitleTooLong : String := "Title must be 200 characters or fewer."

/-- Error message pushed when the trimmed body exceeds 10000 characters. -/
def msgBodyTooLong : String := "Body is too long."

/-- Validation rules of `createPost` (src/controllers/postController.mjs
lines 59-66), applied to the already-coerced inputs.  JavaScript `!s` on a
string is the emptiness test, and `s && p` is `s ≠ "" ∧ p`. -/
def validateCreate (rawTitle rawBody : String) : List String :=
  let e0 : List String := []
  let e1 := if rawTitle = "" then e0 ++ [msgTitleRequired] else e0
  let e2 := if rawBody = "" then e1 ++ [msgBodyRequired] else e1
  let e3 := if rawTitle ≠ "" ∧ rawTitle.length > 200 then e2 ++ [msgTitleTooLong] else e2
  if rawBody ≠ "" ∧ rawBody.length > 10000 then e3 ++ [msgBodyTooLong] else e3

/-- Validation rules of `updatePost` (src/controllers/postController.mjs
lines 132-137); note the absence of the body-length rule. -/
def validateUpdate (rawTitle rawBody : String) : List String :=
  let e0 : List String := []
  let e1 := if rawTitle = "" then e0 ++ [msgTitleRequired] else e0
  let e2 := if rawBody = "" then e1 ++ [msgBodyRequired] else e1
  if rawTitle ≠ "" ∧ rawTitle.length > 200 then e2 ++ [msgTitleTooLong] else e2

/-- A stored blog post document (its mutable fields). -/
structure Post where
  title : String
  body : String
deriving DecidableEq, Repr

/-- The document store: ids mapped to documents, plus the next fresh id. -/
structure Store where
  posts : List (Nat × Post)
  nextId : Nat
deriving DecidableEq, Repr

/-- Model of `BlogPost.findById` on the happy path. -/
def Store.findById (st : Store) (id : Nat) : Option Post :=
  (st.posts.find? (fun e => e.1 == id)).map (fun e => e.2)

/-- Model of `new BlogPost({...}).save()`: insert a new document under a fresh id and
return the assigned id. -/
def Store.insert (st : Store) (p : Post) : Store × Nat :=
  (⟨st.posts ++ [(st.nextId, p)], st.nextId + 1⟩, st.nextId)

/-- Model of `BlogPost.findByIdAndUpdate(id, {title, body}, {new: true})`: replace the
document's fields and return the updated document (with its id) together
with the new store, or `none` when the id is absent. -/
def Store.findByIdAndUpdate (st : Store) (id : Nat) (title body : String) :
    Option ((Nat × Post) × Store) :=
  match st.posts.find? (fun e => e.1 == id) with
  | none => none
  | some e => some ((e.1, ⟨title, body⟩),
      ⟨st.posts.map (fun q => if q.1 == id then (q.1, Post.mk title body) else q),
        st.nextId⟩)

/-- Model of `BlogPost.findByIdAndDelete(id)`: remove the document and return it, or
`none` when the id is absent. -/
def Store.findByIdAndDelete (st : Store) (id : Nat) : Option (Post × Store) :=
  match st.posts.find? (fun e => e.1 == id) with
  | none => none
  | some e => some (e.2, ⟨st.posts.filter (fun q => !(q.1 == id)), st.nextId⟩)

/-- The single response a handler emits. -/
inductive Response where
  | renderNew (status : Nat) (errors : List String) (title body : String)
  | renderEdit (status : Nat) (errors : List String) (id : Nat) (title body : String)
  | renderDetail (id : Nat) (title body url : String)
  | redirect (location : String)
  | notFound
  | methodNotAllowed
  | expressDefault
deriving DecidableEq, Repr

/-- The HTTP status carried by a response (`render` defaults to 200,
`res.redirect` to 302, and the 404/405 sends are explicit in the source). -/
def Response.status : Response → Nat
  | Response.renderNew s _ _ _ => s
  | Response.renderEdit s _ _ _ _ => s
  | Response.renderDetail _ _ _ _ => 200
  | Response.redirect _ => 302
  | Response.notFound => 404
  | Response.methodNotAllowed => 405
  | Response.expressDefault => 404

/-- Modelled from the spec: the Mongoose model file (`models/blogspot.mjs`,
which carries the `url` virtual) is not among the provided source files.
Per §4.1, `computeUrl(id)` always returns `/posts/{id}`. -/
def computeUrl (id : Nat) : String := "/posts/" ++ toString id

/-- Handler `getPostById` (src/controllers/postController.mjs lines 24-42): 404 when
the id is absent, otherwise render the detail view with the `url` virtual. -/
def getPostById (st : Store) (id : Nat) : Response :=
  match st.findById id with
  | none => Response.notFound
  | some post => Response.renderDetail id post.title post.body (computeUrl id)

/-- Handler `showEditForm` (src/controllers/postController.mjs lines 106-120): 404
when the id is absent, otherwise render the edit view prefilled with the
stored fields. -/
def showEditForm (st : Store) (id : Nat) : Response :=
  match st.findById id with
  | none => Response.notFound
  | some post => Response.renderEdit 200 [] id post.title post.body

/-- Body of `createPost` after the coercion step
(src/controllers/postController.mjs lines 59-82). -/
def createPostWith (st : Store) (rawTitle rawBody : String) : Store × Response :=
  let errors := validateCreate rawTitle rawBody
  if errors.length > 0 then
    (st, Response.renderNew 400 errors rawTitle rawBody)
  else
    let saved := st.insert ⟨rawTitle, rawBody⟩
    (saved.1, Response.redirect ("/posts/" ++ toString saved.2))

/-- Handler `createPost` (src/controllers/postController.mjs lines 51-87, happy path
of the try block). -/
def createPost (st : Store) (titleIn bodyIn : RawValue) : Store × Response :=
  createPostWith st (coerceInput titleIn) (coerceInput bodyIn)

/-- Body of `updatePost` after the coercion step
(src/controllers/postController.mjs lines 132-152).  The redirect uses
`updated._id`, the id carried by the updated document. -/
def updatePostWith (st : Store) (id : Nat) (rawTitle rawBody : String) :
    Store × Response :=
  let errors := validateUpdate rawTitle rawBody
  if errors.length > 0 then
    (st, Response.renderEdit 400 errors id rawTitle rawBody)
  else
    match st.findByIdAndUpdate id rawTitle rawBody with
    | none => (st, Response.notFound)
    | some (updated, st2) => (st2, Response.redirect ("/posts/" ++ toString updated.1))

/-- Handler `updatePost` (src/controllers/postController.mjs lines 123-157, happy
path of the try block). -/
def updatePost (st : Store) (id : Nat) (titleIn bodyIn : RawValue) :
    Store × Response :=
  updatePostWith st id (coerceInput titleIn) (coerceInput bodyIn)

/-- Handler `deletePost` (src/controllers/postController.mjs lines 90-103). -/
def deletePost (st : Store) (id : Nat) : Store × Response :=
  match st.findByIdAndDelete id with
  | none => (st, Response.notFound)
  | some (_, st2) => (st2, Response.redirect "/posts/")

/-- Model of JavaScript `toUpperCase` on ASCII method names, as applied by
the method-override middleware. -/
def jsToUpper (s : String) : String := String.mk (s.data.map Char.toUpper)

/-- The urlencoded form fields of a write request: the two post fields plus
the optional `_method` override field. -/
structure FormBody where
  title : RawValue
  body : RawValue
  methodField : Option String
deriving DecidableEq, Repr

/-- An inbound HTTP request to `/posts/{id}`: its verb, the optional
`_method` query parameter, and its form body. -/
structure Request where
  method : String
  queryMethod : Option String
  form : FormBody
deriving DecidableEq, Repr

/-- One pass of the method-override middleware (src/server.mjs lines 21-32):
when the original verb is POST and the lookup yields a value, the request
method becomes that value uppercased; otherwise it is left alone. -/
def overrideOnce (orig cur : String) (lookup : Option String) : String :=
  if orig = "POST" then
    match lookup with
    | some m => jsToUpper m
    | none => cur
  else cur

/-- The request method seen by the router after both middleware passes:
first `methodOverride("_method")` (query parameter), then the custom
body-field getter (src/server.mjs lines 21-32); both only rewrite requests
whose original verb is POST. -/
def effectiveMethod (r : Request) : String :=
  overrideOnce r.method (overrideOnce r.method r.method r.queryMethod) r.form.methodField

/-- The `router.route("/:id")` dispatch (src/routes/postRoutes.mjs lines
65-79): GET shows the post, PUT updates, DELETE deletes, and a POST that was
not rewritten by method-override hits the fallback that sends 405; any other
verb falls through to the framework default. -/
def dispatchPostsId (st : Store) (id : Nat) (r : Request) : Store × Response :=
  if effectiveMethod r = "GET" then (st, getPostById st id)
  else if effectiveMethod r = "PUT" then updatePost st id r.form.title r.form.body
  else if effectiveMethod r = "DELETE" then deletePost st id
  else if effectiveMethod r = "POST" then (st, Response.methodNotAllowed)
  else (st, Response.expressDefault)

/-- Modelled from the spec: the ellipsis marker appended by `getSummary` in
the missing `models/blogspot.mjs`. -/
def ellipsisMarker : String := "..."

/-- Modelled from the spec: `models/blogspot.mjs` (the Mongoose `getSummary`
instance method) is not among the provided source files.  Per §4.1: if
`body` length ≤ `maxLength`, return `body` unchanged; otherwise return the
first `maxLength` characters followed by an ellipsis marker. -/
def computeSummary (body : String) (maxLength : Nat) : String :=
  if body.length ≤ maxLength then body
  else String.mk (body.data.take maxLength) ++ ellipsisMarker

/-- Modelled from the spec: `maxLength` defaults to 50 when unspecified. -/
def computeSummaryDefault (body : String) : String := computeSummary body 50

/-- A string that is neither empty nor whitespace-only: it contains at least
one non-whitespace character. -/
def nonBlank (s : String) : Prop := ∃ c ∈ s.data, c.isWhitespace = false

/-- The data-model invariant of §3: no stored document has an empty or
whitespace-only title or body. -/
def Store.WF (st : Store) : Prop :=
  ∀ e ∈ st.posts, nonBlank e.2.title ∧ nonBlank e.2.body

/-! ### Characterization of the validators -/

theorem validateCreate_eq (t b : String) :
    validateCreate t b =
      (if t = "" then [msgTitleRequired] else [])
        ++ ((if b = "" then [msgBodyRequired] else [])
        ++ ((if t ≠ "" ∧ t.length > 200 then [msgTitleTooLong] else [])
        ++ (if b ≠ "" ∧ b.length > 10000 then [msgBodyTooLong] else []))) := by
  simp only [validateCreate]
  split_ifs <;> simp_all

theorem validateUpdate_eq (t b : String) :
    validateUpdate t b =
      (if t = "" then [msgTitleRequired] else [])
        ++ ((if b = "" then [msgBodyRequired] else [])
        ++ (if t ≠ "" ∧ t.length > 200 then [msgTitleTooLong] else [])) := by
  simp only [validateUpdate]
  split_ifs <;> simp_all

theorem validateCreate_sublist (t b : String) :
    List.Sublist (validateCreate t b)
      [msgTitleRequired, msgBodyRequired, msgTitleTooLong, msgBodyTooLong] := by
  rw [validateCreate_eq]
  split_ifs <;> decide

theorem validateCreate_mem_titleReq (t b : String) :
    msgTitleRequired ∈ validateCreate t b ↔ t = "" := by
  rw [validateCreate_eq]
  split_ifs <;>
    simp_all [msgTitleRequired, msgBodyRequired, msgTitleTooLong, msgBodyTooLong]

theorem validateCreate_mem_bodyReq (t b : String) :
    msgBodyRequired ∈ validateCreate t b ↔ b = "" := by
  rw [validateCreate_eq]
  split_ifs <;>
    simp_all [msgTitleRequired, msgBodyRequired, msgTitleTooLong, msgBodyTooLong]

theorem validateCreate_mem_titleLong (t b : String) :
    msgTitleTooLong ∈ validateCreate t b ↔ t ≠ "" ∧ t.length > 200 := by
  rw [validateCreate_eq]
  split_ifs <;>
    simp_all [msgTitleRequired, msgBodyRequired, msgTitleTooLong, msgBodyTooLong]

theorem validateCreate_mem_bodyLong (t b : String) :
    msgBodyTooLong ∈ validateCreate t b ↔ b ≠ "" ∧ b.length > 10000 := by
  rw [validateCreate_eq]
  split_ifs <;>
    simp_all [msgTitleRequired, msgBodyRequired, msgTitleTooLong, msgBodyTooLong]

theorem validateUpdate_nil_iff (t b : String) :
    validateUpdate t b = [] ↔ t ≠ "" ∧ b ≠ "" ∧ t.length ≤ 200 := by
  rw [validateUpdate_eq]
  split_ifs <;> simp_all

theorem validateCreate_nil_iff (t b : String) :
    validateCreate t b = [] ↔
      t ≠ "" ∧ b ≠ "" ∧ t.length ≤ 200 ∧ b.length ≤ 10000 := by
  rw [validateCreate_eq]
  split_ifs <;> simp_all

/-! ### Trimmed non-empty strings contain a non-whitespace character -/

theorem dropWhile_exists_not (p : Char → Bool) (l : List Char)
    (h : l.dropWhile p ≠ []) : ∃ c ∈ l.dropWhile p, ¬ p c := by
  induction l with
  | nil => simp at h
  | cons a l ih =>
    by_cases hp : p a
    · rw [List.dropWhile_cons_of_pos hp] at h ⊢
      exact ih h
    · rw [List.dropWhile_cons_of_neg hp]
      exact ⟨a, List.mem_cons_self _ _, hp⟩

theorem jsTrim_nonBlank (s : String) (h : jsTrim s ≠ "") : nonBlank (jsTrim s) := by
  have hdef : jsTrim s = String.mk (((s.data.dropWhile Char.isWhitespace).reverse.dropWhile
      Char.isWhitespace).reverse) := rfl
  have hne : (s.data.dropWhile Char.isWhitespace).reverse.dropWhile
      Char.isWhitespace ≠ [] := by
    intro hnil
    exact h (by rw [hdef, hnil]; rfl)
  obtain ⟨c, hc, hcp⟩ := dropWhile_exists_not _ _ hne
  refine ⟨c, ?_, by simpa using hcp⟩
  show c ∈ ((s.data.dropWhile Char.isWhitespace).reverse.dropWhile
    Char.isWhitespace).reverse
  exact List.mem_reverse.mpr hc

theorem coerceInput_nonBlank (v : RawValue) (h : coerceInput v ≠ "") :
    nonBlank (coerceInput v) := by
  cases v with
  | str s => exact jsTrim_nonBlank s h
  | absent => simp [coerceInput] at h
  | nonString => simp [coerceInput] at h

/-! ### Store lemmas -/

theorem find?_filter_ne {α : Type} (l : List (Nat × α)) (i : Nat) :
    (l.filter (fun q => !(q.1 == i))).find? (fun q => q.1 == i) = none := by
  rw [List.find?_eq_none]
  intro x hx
  simp [List.mem_filter] at hx
  simp [hx.2]

theorem findById_of_find? (st : Store) (id : Nat) (e : Nat × Post)
    (h : st.posts.find? (fun q => q.1 == id) = some e) :
    st.findById id = some e.2 := by
  simp [Store.findById, h]

theorem find?_key (l : List (Nat × Post)) (i : Nat) (e : Nat × Post)
    (h : l.find? (fun q => q.1 == i) = some e) : e.1 = i := by
  have := List.find?_some h
  simpa using this

theorem find?_map_update (l : List (Nat × Post)) (i : Nat) (e : Nat × Post)
    (t b : String) (h : l.find? (fun q => q.1 == i) = some e) :
    (l.map (fun q => if q.1 == i then (q.1, Post.mk t b) else q)).find?
      (fun q => q.1 == i) = some (i, Post.mk t b) := by
  induction l with
  | nil => simp at h
  | cons a l ih =>
    by_cases ha : a.1 = i
    · simp [List.find?_cons, ha]
    · rw [List.find?_cons_of_neg] at h
      · simp only [List.map_cons]
        rw [List.find?_cons_of_neg, ih h]
        simp [ha]
      · simp [ha]

/-! ### Handler-level lemmas -/

theorem createPostWith_invalid (st : Store) (t b : String)
    (h : validateCreate t b ≠ []) :
    createPostWith st t b = (st, Response.renderNew 400 (validateCreate t b) t b) := by
  simp only [createPostWith]
  rw [if_pos (List.length_pos.mpr h)]

theorem createPostWith_valid (st : Store) (t b : String)
    (h : validateCreate t b = []) :
    createPostWith st t b =
      (⟨st.posts ++ [(st.nextId, ⟨t, b⟩)], st.nextId + 1⟩,
        Response.redirect ("/posts/" ++ toString st.nextId)) := by
  simp only [createPostWith, h]
  rfl

theorem updatePostWith_invalid (st : Store) (id : Nat) (t b : String)
    (h : validateUpdate t b ≠ []) :
    updatePostWith st id t b =
      (st, Response.renderEdit 400 (validateUpdate t b) id t b) := by
  simp only [updatePostWith]
  rw [if_pos (List.length_pos.mpr h)]

theorem updatePostWith_missing (st : Store) (id : Nat) (t b : String)
    (hv : validateUpdate t b = []) (h : st.findById id = none) :
    updatePostWith st id t b = (st, Response.notFound) := by
  have hf : st.posts.find? (fun q => q.1 == id) = none := by
    simp only [Store.findById, Option.map_eq_none'] at h
    exact h
  simp [updatePostWith, hv, Store.findByIdAndUpdate, hf]

theorem updatePostWith_found (st : Store) (id : Nat) (t b : String) (p : Post)
    (hv : validateUpdate t b = []) (hp : st.findById id = some p) :
    updatePostWith st id t b =
      (⟨st.posts.map (fun q => if q.1 == id then (q.1, Post.mk t b) else q),
          st.nextId⟩,
        Response.redirect ("/posts/" ++ toString id))
    ∧ (updatePostWith st id t b).1.findById id = some ⟨t, b⟩ := by
  obtain ⟨e, he, hep⟩ : ∃ e, st.posts.find? (fun q => q.1 == id) = some e ∧ e.2 = p := by
    simp only [Store.findById, Option.map_eq_some'] at hp
    obtain ⟨e, he, hep⟩ := hp
    exact ⟨e, he, hep⟩
  have hkey : e.1 = id := find?_key _ _ _ he
  have heq : updatePostWith st id t b =
      (⟨st.posts.map (fun q => if q.1 == id then (q.1, Post.mk t b) else q),
          st.nextId⟩,
        Response.redirect ("/posts/" ++ toString id)) := by
    simp [updatePostWith, hv, Store.findByIdAndUpdate, he, hkey]
  refine ⟨heq, ?_⟩
  rw [heq]
  show Store.findById _ id = some ⟨t, b⟩
  simp only [Store.findById]
  rw [find?_map_update _ _ _ _ _ he]
  rfl

theorem deletePost_missing (st : Store) (id : Nat) (h : st.findById id = none) :
    deletePost st id = (st, Response.notFound) := by
  have hf : st.posts.find? (fun q => q.1 == id) = none := by
    simp only [Store.findById, Option.map_eq_none'] at h
    exact h
  simp [deletePost, Store.findByIdAndDelete, hf]

theorem deletePost_twice (st : Store) (id : Nat) :
    (deletePost (deletePost st id).1 id).2 = Response.notFound := by
  rcases hf : st.posts.find? (fun q => q.1 == id) with _ | e
  · have h1 : deletePost st id = (st, Response.notFound) := by
      simp [deletePost, Store.findByIdAndDelete, hf]
    rw [h1]
    simp [deletePost, Store.findByIdAndDelete, hf]
  · have h1 : (deletePost st id).1 =
        ⟨st.posts.filter (fun q => !(q.1 == id)), st.nextId⟩ := by
      simp [deletePost, Store.findByIdAndDelete, hf]
    rw [h1]
    have h2 := find?_filter_ne st.posts id
    simp only [deletePost, Store.findByIdAndDelete, h2]

/-! ### Invariant-preservation lemmas -/

theorem WF_insert (st : Store) (p : Post) (hwf : st.WF) (hp1 : nonBlank p.title)
    (hp2 : nonBlank p.body) : (st.insert p).1.WF := by
  intro e he
  simp only [Store.insert, List.mem_append, List.mem_singleton] at he
  rcases he with he | he
  · exact hwf e he
  · rw [he]
    exact ⟨hp1, hp2⟩

theorem WF_map_update (st : Store) (id : Nat) (t b : String) (hwf : st.WF)
    (h1 : nonBlank t) (h2 : nonBlank b) :
    Store.WF ⟨st.posts.map (fun q => if q.1 == id then (q.1, Post.mk t b) else q),
      st.nextId⟩ := by
  intro e he
  simp only [List.mem_map] at he
  obtain ⟨q, hq, he⟩ := he
  by_cases hid : q.1 = id
  · rw [← he]
    simp only [hid, beq_self_eq_true, if_true]
    exact ⟨h1, h2⟩
  · have hfalse : (q.1 == id) = false := by simp [hid]
    rw [← he, hfalse]
    simp only [Bool.false_eq_true, if_false]
    exact hwf q hq

/-! ### Sample inputs used by the concrete witnesses -/

/-- A concrete 10001-character body, exceeding the create-path upper bound. -/
def longBody : String := String.mk (List.replicate 10001 'a')

theorem longBody_length : longBody.length = 10001 := by
  show (List.replicate 10001 'a').length = 10001
  rw [List.length_replicate]

/-- A one-document sample store used by several witnesses. -/
def sampleStore : Store := ⟨[(0, ⟨"t0", "b0"⟩)], 1⟩

/-! ## The claims -/

/-- C1: For every raw create input (title, body), validation accumulates all
applicable errors without short-circuiting, the possible error messages are
exactly the four fixed strings, and the errors appear in the output list in
the fixed rule order (title-required, body-required, title-too-long,
body-too-long) regardless of which rules fired. -/
theorem create_validation_accumulates_in_fixed_order (tv bv : RawValue) :
    List.Sublist (validateCreate (coerceInput tv) (coerceInput bv))
      [msgTitleRequired, msgBodyRequired, msgTitleTooLong, msgBodyTooLong]
    ∧ (msgTitleRequired ∈ validateCreate (coerceInput tv) (coerceInput bv) ↔
        coerceInput tv = "")
    ∧ (msgBodyRequired ∈ validateCreate (coerceInput tv) (coerceInput bv) ↔
        coerceInput bv = "")
    ∧ (msgTitleTooLong ∈ validateCreate (coerceInput tv) (coerceInput bv) ↔
        coerceInput tv ≠ "" ∧ (coerceInput tv).length > 200)
    ∧ (msgBodyTooLong ∈ validateCreate (coerceInput tv) (coerceInput bv) ↔
        coerceInput bv ≠ "" ∧ (coerceInput bv).length > 10000)
    ∧ ∀ m ∈ validateCreate (coerceInput tv) (coerceInput bv),
        m = msgTitleRequired ∨ m = msgBodyRequired ∨ m = msgTitleTooLong ∨
          m = msgBodyTooLong :=
  ⟨validateCreate_sublist _ _, validateCreate_mem_titleReq _ _,
    validateCreate_mem_bodyReq _ _, validateCreate_mem_titleLong _ _,
    validateCreate_mem_bodyLong _ _,
    fun m hm => by
      have hsub := (validateCreate_sublist (coerceInput tv) (coerceInput bv)).subset hm
      simpa using hsub⟩

/-- Witness for C1 at a concrete input (whitespace-only title, short body):
both fire conditions and the disjunction are checked at that point. -/
theorem create_validation_accumulates_in_fixed_order_witness :
    List.Sublist (validateCreate (coerceInput (RawValue.str "  "))
        (coerceInput (RawValue.str " x ")))
      [msgTitleRequired, msgBodyRequired, msgTitleTooLong, msgBodyTooLong]
    ∧ (msgTitleRequired ∈ validateCreate (coerceInput (RawValue.str "  "))
        (coerceInput (RawValue.str " x ")) ↔ coerceInput (RawValue.str "  ") = "")
    ∧ (msgBodyRequired ∈ validateCreate (coerceInput (RawValue.str "  "))
        (coerceInput (RawValue.str " x ")) ↔ coerceInput (RawValue.str " x ") = "")
    ∧ (msgTitleTooLong ∈ validateCreate (coerceInput (RawValue.str "  "))
        (coerceInput (RawValue.str " x ")) ↔
        coerceInput (RawValue.str "  ") ≠ "" ∧
          (coerceInput (RawValue.str "  ")).length > 200)
    ∧ (msgBodyTooLong ∈ validateCreate (coerceInput (RawValue.str "  "))
        (coerceInput (RawValue.str " x ")) ↔
        coerceInput (RawValue.str " x ") ≠ "" ∧
          (coerceInput (RawValue.str " x ")).length > 10000)
    ∧ ∀ m ∈ validateCreate (coerceInput (RawValue.str "  "))
        (coerceInput (RawValue.str " x ")),
        m = msgTitleRequired ∨ m = msgBodyRequired ∨ m = msgTitleTooLong ∨
          m = msgBodyTooLong :=
  create_validation_accumulates_in_fixed_order (RawValue.str "  ") (RawValue.str " x ")

/-- C2: The update workflow does not enforce the 10000-character body upper
bound that the create workflow enforces: for every trimmed body longer than
10000 characters with a non-empty trimmed title of at most 200 characters,
update validation yields no errors and the update proceeds to the store,
whereas the create path reports "Body is too long." and leaves the store
unchanged. -/
theorem update_path_omits_body_upper_bound (st : Store) (id : Nat) (t b : String)
    (ht : t ≠ "") (ht200 : t.length ≤ 200) (hb : b.length > 10000) :
    validateUpdate t b = []
    ∧ msgBodyTooLong ∈ validateCreate t b
    ∧ createPostWith st t b = (st, Response.renderNew 400 (validateCreate t b) t b)
    ∧ ∀ p : Post, st.findById id = some p →
        updatePostWith st id t b =
          (⟨st.posts.map (fun q => if q.1 == id then (q.1, Post.mk t b) else q),
              st.nextId⟩,
            Response.redirect ("/posts/" ++ toString id))
        ∧ (updatePostWith st id t b).1.findById id = some ⟨t, b⟩ := by
  have hbne : b ≠ "" := by
    intro h0
    rw [h0] at hb
    simp at hb
  have hv : validateUpdate t b = [] := (validateUpdate_nil_iff t b).mpr ⟨ht, hbne, ht200⟩
  have hmem : msgBodyTooLong ∈ validateCreate t b :=
    (validateCreate_mem_bodyLong t b).mpr ⟨hbne, hb⟩
  have hcne : validateCreate t b ≠ [] := by
    intro h0
    rw [h0] at hmem
    simp at hmem
  exact ⟨hv, hmem, createPostWith_invalid st t b hcne,
    fun p hp => updatePostWith_found st id t b p hv hp⟩

/-- Witness for C2: a 10001-character body with a one-character title, against
a store holding one document under id 0. -/
theorem update_path_omits_body_upper_bound_witness :
    (("a" : String) ≠ "" ∧ ("a" : String).length ≤ 200 ∧ longBody.length > 10000)
    ∧ (validateUpdate "a" longBody = []
    ∧ msgBodyTooLong ∈ validateCreate "a" longBody
    ∧ createPostWith sampleStore "a" longBody =
        (sampleStore, Response.renderNew 400 (validateCreate "a" longBody) "a" longBody)
    ∧ ∀ p : Post, sampleStore.findById 0 = some p →
        updatePostWith sampleStore 0 "a" longBody =
          (⟨sampleStore.posts.map
              (fun q => if q.1 == 0 then (q.1, Post.mk "a" longBody) else q),
              sampleStore.nextId⟩,
            Response.redirect ("/posts/" ++ toString 0))
        ∧ (updatePostWith sampleStore 0 "a" longBody).1.findById 0 =
            some ⟨"a", longBody⟩) :=
  ⟨⟨by decide, by decide, by rw [longBody_length]; decide⟩,
    update_path_omits_body_upper_bound sampleStore 0 "a" longBody (by decide)
      (by decide) (by rw [longBody_length]; decide)⟩

/-- C3 counterexample: a POST to `/posts/0` carrying a valid title and body
but no `_method` override field does not perform the update — it hits the
router's POST fallback, leaves the store unchanged and answers 405, not a
302 redirect. -/
theorem post_without_override_hits_fallback :
    dispatchPostsId sampleStore 0
        ⟨"POST", none, ⟨RawValue.str "New title", RawValue.str "New body", none⟩⟩ =
      (sampleStore, Response.methodNotAllowed)
    ∧ (dispatchPostsId sampleStore 0
        ⟨"POST", none, ⟨RawValue.str "New title", RawValue.str "New body", none⟩⟩).2 ≠
      Response.redirect "/posts/0"
    ∧ Response.methodNotAllowed.status = 405
    ∧ sampleStore.findById 0 = some ⟨"t0", "b0"⟩ := by decide

/-- C3 (amended): the Update action on `/posts/{id}` is reachable via PUT
directly, and via POST only when the request carries a method-override
`_method=PUT` field; such a POST behaves exactly like the PUT (update plus
302 redirect to `/posts/{id}`), while a POST without the override field hits
the fallback handler, receiving 405 with no update performed. -/
theorem update_via_put_or_overridden_post (st : Store) (id : Nat) (p : Post)
    (tv bv : RawValue) (hp : st.findById id = some p)
    (ht : coerceInput tv ≠ "") (ht200 : (coerceInput tv).length ≤ 200)
    (hb : coerceInput bv ≠ "") :
    dispatchPostsId st id ⟨"PUT", none, ⟨tv, bv, none⟩⟩ =
      (⟨st.posts.map (fun q => if q.1 == id then
          (q.1, Post.mk (coerceInput tv) (coerceInput bv)) else q), st.nextId⟩,
        Response.redirect ("/posts/" ++ toString id))
    ∧ dispatchPostsId st id ⟨"POST", none, ⟨tv, bv, some "PUT"⟩⟩ =
        dispatchPostsId st id ⟨"PUT", none, ⟨tv, bv, none⟩⟩
    ∧ dispatchPostsId st id ⟨"POST", none, ⟨tv, bv, none⟩⟩ =
        (st, Response.methodNotAllowed) := by
  have hv : validateUpdate (coerceInput tv) (coerceInput bv) = [] :=
    (validateUpdate_nil_iff _ _).mpr ⟨ht, hb, ht200⟩
  have hput : effectiveMethod ⟨"PUT", none, ⟨tv, bv, none⟩⟩ = "PUT" := by
    simp [effectiveMethod, overrideOnce]
  have hupper : jsToUpper "PUT" = "PUT" := by decide
  have hpostPut : effectiveMethod ⟨"POST", none, ⟨tv, bv, some "PUT"⟩⟩ = "PUT" := by
    simp [effectiveMethod, overrideOnce, hupper]
  have hpostPlain : effectiveMethod ⟨"POST", none, ⟨tv, bv, none⟩⟩ = "POST" := by
    simp [effectiveMethod, overrideOnce]
  have h1 : dispatchPostsId st id ⟨"PUT", none, ⟨tv, bv, none⟩⟩ =
      updatePost st id tv bv := by
    simp [dispatchPostsId, hput]
  have h2 : dispatchPostsId st id ⟨"POST", none, ⟨tv, bv, some "PUT"⟩⟩ =
      updatePost st id tv bv := by
    simp [dispatchPostsId, hpostPut]
  refine ⟨?_, ?_, ?_⟩
  · rw [h1]
    exact (updatePostWith_found st id (coerceInput tv) (coerceInput bv) p hv hp).1
  · rw [h1, h2]
  · simp [dispatchPostsId, hpostPlain]

/-- Witness for C3's amended theorem at a one-document store with valid
replacement fields. -/
theorem update_via_put_or_overridden_post_witness :
    (sampleStore.findById 0 = some ⟨"t0", "b0"⟩
      ∧ coerceInput (RawValue.str "New") ≠ ""
      ∧ (coerceInput (RawValue.str "New")).length ≤ 200
      ∧ coerceInput (RawValue.str "Body2") ≠ "")
    ∧ (dispatchPostsId sampleStore 0
          ⟨"PUT", none, ⟨RawValue.str "New", RawValue.str "Body2", none⟩⟩ =
        (⟨sampleStore.posts.map (fun q => if q.1 == 0 then
            (q.1, Post.mk (coerceInput (RawValue.str "New"))
              (coerceInput (RawValue.str "Body2"))) else q), sampleStore.nextId⟩,
          Response.redirect ("/posts/" ++ toString 0))
    ∧ dispatchPostsId sampleStore 0
          ⟨"POST", none, ⟨RawValue.str "New", RawValue.str "Body2", some "PUT"⟩⟩ =
        dispatchPostsId sampleStore 0
          ⟨"PUT", none, ⟨RawValue.str "New", RawValue.str "Body2", none⟩⟩
    ∧ dispatchPostsId sampleStore 0
          ⟨"POST", none, ⟨RawValue.str "New", RawValue.str "Body2", none⟩⟩ =
        (sampleStore, Response.methodNotAllowed)) :=
  ⟨⟨by decide, by decide, by decide, by decide⟩,
    update_via_put_or_overridden_post sampleStore 0 ⟨"t0", "b0"⟩
      (RawValue.str "New") (RawValue.str "Body2") (by decide) (by decide)
      (by decide) (by decide)⟩

/-- C4: Validation failure is atomic — whenever the create or update
validator reports a non-empty error list, the store is left untouched and
the handler answers 400 with the corresponding form view carrying the error
list. -/
theorem validation_failure_is_atomic (st : Store) (id : Nat) (tv bv : RawValue) :
    (validateCreate (coerceInput tv) (coerceInput bv) ≠ [] →
      createPost st tv bv =
        (st, Response.renderNew 400
          (validateCreate (coerceInput tv) (coerceInput bv))
          (coerceInput tv) (coerceInput bv))
      ∧ (createPost st tv bv).2.status = 400)
    ∧ (validateUpdate (coerceInput tv) (coerceInput bv) ≠ [] →
      updatePost st id tv bv =
        (st, Response.renderEdit 400
          (validateUpdate (coerceInput tv) (coerceInput bv))
          id (coerceInput tv) (coerceInput bv))
      ∧ (updatePost st id tv bv).2.status = 400) := by
  constructor
  · intro h
    have he : createPost st tv bv =
        (st, Response.renderNew 400
          (validateCreate (coerceInput tv) (coerceInput bv))
          (coerceInput tv) (coerceInput bv)) :=
      createPostWith_invalid st (coerceInput tv) (coerceInput bv) h
    refine ⟨he, ?_⟩
    rw [he]
    rfl
  · intro h
    have he : updatePost st id tv bv =
        (st, Response.renderEdit 400
          (validateUpdate (coerceInput tv) (coerceInput bv))
          id (coerceInput tv) (coerceInput bv)) :=
      updatePostWith_invalid st id (coerceInput tv) (coerceInput bv) h
    refine ⟨he, ?_⟩
    rw [he]
    rfl

/-- Witness for C4 at a whitespace-only title (invalid on both paths)
against a non-empty store. -/
theorem validation_failure_is_atomic_witness :
    (validateCreate (coerceInput (RawValue.str "   "))
        (coerceInput (RawValue.str " ok ")) ≠ []
      ∧ createPost sampleStore (RawValue.str "   ") (RawValue.str " ok ") =
          (sampleStore, Response.renderNew 400
            (validateCreate (coerceInput (RawValue.str "   "))
              (coerceInput (RawValue.str " ok ")))
            (coerceInput (RawValue.str "   ")) (coerceInput (RawValue.str " ok ")))
      ∧ (createPost sampleStore (RawValue.str "   ")
          (RawValue.str " ok ")).2.status = 400)
    ∧ (validateUpdate (coerceInput (RawValue.str "   "))
        (coerceInput (RawValue.str " ok ")) ≠ []
      ∧ updatePost sampleStore 7 (RawValue.str "   ") (RawValue.str " ok ") =
          (sampleStore, Response.renderEdit 400
            (validateUpdate (coerceInput (RawValue.str "   "))
              (coerceInput (RawValue.str " ok ")))
            7 (coerceInput (RawValue.str "   ")) (coerceInput (RawValue.str " ok ")))
      ∧ (updatePost sampleStore 7 (RawValue.str "   ")
          (RawValue.str " ok ")).2.status = 400) :=
  ⟨⟨by decide, (validation_failure_is_atomic sampleStore 7 (RawValue.str "   ")
      (RawValue.str " ok ")).1 (by decide)⟩,
    ⟨by decide, (validation_failure_is_atomic sampleStore 7 (RawValue.str "   ")
      (RawValue.str " ok ")).2 (by decide)⟩⟩

/-- C5: An invalid update is answered with the re-rendered edit view (status
400, submitted values and errors included) without consulting the store at
all, for every store — in particular for one in which the target id does not
exist, where the answer is still 400 and never the 404 not-found response. -/
theorem invalid_update_skips_existence_check (st : Store) (id : Nat)
    (tv bv : RawValue)
    (h : validateUpdate (coerceInput tv) (coerceInput bv) ≠ []) :
    updatePost st id tv bv =
      (st, Response.renderEdit 400
        (validateUpdate (coerceInput tv) (coerceInput bv))
        id (coerceInput tv) (coerceInput bv))
    ∧ (updatePost st id tv bv).2.status = 400
    ∧ (updatePost st id tv bv).2 ≠ Response.notFound := by
  have he : updatePost st id tv bv =
      (st, Response.renderEdit 400
        (validateUpdate (coerceInput tv) (coerceInput bv))
        id (coerceInput tv) (coerceInput bv)) :=
    updatePostWith_invalid st id (coerceInput tv) (coerceInput bv) h
  refine ⟨he, ?_, ?_⟩
  · rw [he]
    rfl
  · rw [he]
    simp

/-- Witness for C5: an invalid update aimed at id 5 of the empty store (a
nonexistent id) still gets the 400 edit view, not 404. -/
theorem invalid_update_skips_existence_check_witness :
    validateUpdate (coerceInput (RawValue.str " "))
      (coerceInput (RawValue.str "ok")) ≠ []
    ∧ Store.findById ⟨[], 0⟩ 5 = none
    ∧ (updatePost ⟨[], 0⟩ 5 (RawValue.str " ") (RawValue.str "ok") =
        ((⟨[], 0⟩ : Store), Response.renderEdit 400
          (validateUpdate (coerceInput (RawValue.str " "))
            (coerceInput (RawValue.str "ok")))
          5 (coerceInput (RawValue.str " ")) (coerceInput (RawValue.str "ok")))
      ∧ (updatePost ⟨[], 0⟩ 5 (RawValue.str " ") (RawValue.str "ok")).2.status = 400
      ∧ (updatePost ⟨[], 0⟩ 5 (RawValue.str " ")
          (RawValue.str "ok")).2 ≠ Response.notFound) :=
  ⟨by decide, by decide,
    invalid_update_skips_existence_check ⟨[], 0⟩ 5 (RawValue.str " ")
      (RawValue.str "ok") (by decide)⟩

/-- C6: Invariant preserved by every create and update operation: titles and
bodies are never stored as empty or whitespace-only strings — input that is
absent, non-string, or trims to empty is rejected by validation before any
persistence attempt, so a well-formed store stays well-formed. -/
theorem stored_fields_never_blank (st : Store) (id : Nat) (tv bv : RawValue)
    (hwf : st.WF) :
    ((createPost st tv bv).1).WF ∧ ((updatePost st id tv bv).1).WF := by
  constructor
  · by_cases hc : validateCreate (coerceInput tv) (coerceInput bv) = []
    · obtain ⟨h1, h2, -, -⟩ := (validateCreate_nil_iff _ _).mp hc
      have he : createPost st tv bv =
          (⟨st.posts ++ [(st.nextId, ⟨coerceInput tv, coerceInput bv⟩)],
              st.nextId + 1⟩,
            Response.redirect ("/posts/" ++ toString st.nextId)) :=
        createPostWith_valid st _ _ hc
      rw [he]
      exact WF_insert st ⟨coerceInput tv, coerceInput bv⟩ hwf
        (coerceInput_nonBlank tv h1) (coerceInput_nonBlank bv h2)
    · have he : createPost st tv bv =
          (st, Response.renderNew 400
            (validateCreate (coerceInput tv) (coerceInput bv))
            (coerceInput tv) (coerceInput bv)) :=
        createPostWith_invalid st _ _ hc
      rw [he]
      exact hwf
  · by_cases hu : validateUpdate (coerceInput tv) (coerceInput bv) = []
    · obtain ⟨h1, h2, -⟩ := (validateUpdate_nil_iff _ _).mp hu
      rcases hp : st.findById id with _ | p
      · have he : updatePost st id tv bv = (st, Response.notFound) :=
          updatePostWith_missing st id _ _ hu hp
        rw [he]
        exact hwf
      · have he : updatePost st id tv bv =
            (⟨st.posts.map (fun q => if q.1 == id then
                (q.1, Post.mk (coerceInput tv) (coerceInput bv)) else q),
                st.nextId⟩,
              Response.redirect ("/posts/" ++ toString id)) :=
          (updatePostWith_found st id _ _ p hu hp).1
        rw [he]
        exact WF_map_update st id _ _ hwf
          (coerceInput_nonBlank tv h1) (coerceInput_nonBlank bv h2)
    · have he : updatePost st id tv bv =
          (st, Response.renderEdit 400
            (validateUpdate (coerceInput tv) (coerceInput bv))
            id (coerceInput tv) (coerceInput bv)) :=
        updatePostWith_invalid st id _ _ hu
      rw [he]
      exact hwf

/-- Witness for C6: the invariant holds of the one-document sample store and
is preserved on a concrete create and update. -/
theorem stored_fields_never_blank_witness :
    sampleStore.WF
    ∧ (((createPost sampleStore (RawValue.str " T ") (RawValue.str "B")).1).WF
      ∧ ((updatePost sampleStore 0 (RawValue.str " T ") (RawValue.str "B")).1).WF) :=
  have hwf : sampleStore.WF := by
    intro e he
    simp only [sampleStore, List.mem_singleton] at he
    rw [he]
    exact ⟨⟨'t', by decide, by decide⟩, ⟨'b', by decide, by decide⟩⟩
  ⟨hwf, stored_fields_never_blank sampleStore 0 (RawValue.str " T ")
    (RawValue.str "B") hwf⟩

/-- C7: For every id with no corresponding post, the show, edit-form, update
(with valid input) and delete handlers each answer with the 404 not-found
response, never a 500, a silent success, or a crash; deleting an
already-deleted id reports not found. -/
theorem missing_id_answers_not_found (st : Store) (id : Nat) (tv bv : RawValue)
    (h : st.findById id = none)
    (hv : validateUpdate (coerceInput tv) (coerceInput bv) = []) :
    getPostById st id = Response.notFound
    ∧ showEditForm st id = Response.notFound
    ∧ updatePost st id tv bv = (st, Response.notFound)
    ∧ deletePost st id = (st, Response.notFound)
    ∧ Response.notFound.status = 404
    ∧ ∀ st2 : Store, (deletePost (deletePost st2 id).1 id).2 = Response.notFound := by
  refine ⟨?_, ?_, updatePostWith_missing st id _ _ hv h, deletePost_missing st id h,
    rfl, fun st2 => deletePost_twice st2 id⟩
  · simp [getPostById, h]
  · simp [showEditForm, h]

/-- Witness for C7 at the empty store: id 0 has no post and a valid update
input is supplied. -/
theorem missing_id_answers_not_found_witness :
    Store.findById ⟨[], 0⟩ 0 = none
    ∧ validateUpdate (coerceInput (RawValue.str "T")) (coerceInput (RawValue.str "B")) = []
    ∧ (getPostById ⟨[], 0⟩ 0 = Response.notFound
      ∧ showEditForm ⟨[], 0⟩ 0 = Response.notFound
      ∧ updatePost ⟨[], 0⟩ 0 (RawValue.str "T") (RawValue.str "B") =
          ((⟨[], 0⟩ : Store), Response.notFound)
      ∧ deletePost ⟨[], 0⟩ 0 = ((⟨[], 0⟩ : Store), Response.notFound)
      ∧ Response.notFound.status = 404
      ∧ ∀ st2 : Store, (deletePost (deletePost st2 0).1 0).2 = Response.notFound) :=
  ⟨by decide, by decide,
    missing_id_answers_not_found ⟨[], 0⟩ 0 (RawValue.str "T") (RawValue.str "B")
      (by decide) (by decide)⟩

/-- C8: For every create input whose coerced title and body pass validation,
the handler performs exactly one insertion — the store gains exactly the one
new document, holding the normalized fields under the freshly assigned id —
and answers with a redirect to `/posts/{id}` for that id. -/
theorem valid_create_inserts_once_and_redirects (st : Store) (tv bv : RawValue)
    (h : validateCreate (coerceInput tv) (coerceInput bv) = []) :
    (createPost st tv bv).1.posts =
      st.posts ++ [(st.nextId, ⟨coerceInput tv, coerceInput bv⟩)]
    ∧ (createPost st tv bv).1.nextId = st.nextId + 1
    ∧ (createPost st tv bv).2 =
        Response.redirect ("/posts/" ++ toString st.nextId) := by
  have he : createPost st tv bv =
      (⟨st.posts ++ [(st.nextId, ⟨coerceInput tv, coerceInput bv⟩)],
          st.nextId + 1⟩,
        Response.redirect ("/posts/" ++ toString st.nextId)) :=
    createPostWith_valid st _ _ h
  rw [he]
  exact ⟨rfl, rfl, rfl⟩

/-- Witness for C8: creating a valid post against the sample store. -/
theorem valid_create_inserts_once_and_redirects_witness :
    validateCreate (coerceInput (RawValue.str " T ")) (coerceInput (RawValue.str "B")) = []
    ∧ ((createPost sampleStore (RawValue.str " T ") (RawValue.str "B")).1.posts =
        sampleStore.posts ++
          [(sampleStore.nextId,
            ⟨coerceInput (RawValue.str " T "), coerceInput (RawValue.str "B")⟩)]
      ∧ (createPost sampleStore (RawValue.str " T ") (RawValue.str "B")).1.nextId =
          sampleStore.nextId + 1
      ∧ (createPost sampleStore (RawValue.str " T ") (RawValue.str "B")).2 =
          Response.redirect ("/posts/" ++ toString sampleStore.nextId)) :=
  ⟨by decide,
    valid_create_inserts_once_and_redirects sampleStore (RawValue.str " T ")
      (RawValue.str "B") (by decide)⟩

/-- C9 counterexample: with an empty body and maxLength 0 the length test
0 ≤ 0 succeeds, so `computeSummary` returns the body unchanged — the empty
string — and not the ellipsis marker the claim promises for maxLength 0. -/
theorem computeSummary_zero_empty_body :
    computeSummary "" 0 = "" ∧ computeSummary "" 0 ≠ ellipsisMarker := by decide

/-- C9 (amended): `computeSummary` returns the body unchanged with no marker
when the body's length is at most maxLength, and otherwise returns the first
maxLength characters of the body followed by the ellipsis marker — a result
of length maxLength + len(marker) that is a prefix of the body plus the
marker; maxLength = 0 yields just the marker for every non-empty body,
without error; the default-argument form uses maxLength 50. -/
theorem computeSummary_spec (body : String) (maxLength : Nat) :
    (body.length ≤ maxLength → computeSummary body maxLength = body)
    ∧ (body.length > maxLength →
        (computeSummary body maxLength).data =
          body.data.take maxLength ++ ellipsisMarker.data
        ∧ (computeSummary body maxLength).length =
            maxLength + ellipsisMarker.length
        ∧ List.IsPrefix (body.data.take maxLength) body.data)
    ∧ (body ≠ "" → computeSummary body 0 = ellipsisMarker)
    ∧ computeSummaryDefault body = computeSummary body 50 := by
  refine ⟨?_, ?_, ?_, rfl⟩
  · intro h
    simp [computeSummary, h]
  · intro h
    have hne : ¬ body.length ≤ maxLength := by omega
    have hif : computeSummary body maxLength =
        String.mk (body.data.take maxLength) ++ ellipsisMarker := by
      simp [computeSummary, hne]
    refine ⟨by rw [hif]; rfl, ?_, ⟨body.data.drop maxLength,
      List.take_append_drop maxLength body.data⟩⟩
    rw [hif]
    show (body.data.take maxLength ++ ellipsisMarker.data).length =
      maxLength + ellipsisMarker.length
    rw [List.length_append, List.length_take]
    have : min maxLength body.data.length = maxLength :=
      Nat.min_eq_left (Nat.le_of_lt h)
    rw [this]
    rfl
  · intro h0
    have hlen : 0 < body.length := by
      cases body with
      | mk l =>
        cases l with
        | nil => exact absurd rfl h0
        | cons a l => simp [String.length]
    simp only [computeSummary]
    rw [if_neg (by omega), List.take_zero]
    decide

/-- Witness for C9's amended theorem: truncation at 3 of a 5-character body,
the no-truncation case, and the maxLength-0 case on a non-empty body. -/
theorem computeSummary_spec_witness :
    (("hi" : String).length ≤ 5 ∧ computeSummary "hi" 5 = "hi")
    ∧ (("hello" : String).length > 3
      ∧ ((computeSummary "hello" 3).data =
          ("hello" : String).data.take 3 ++ ellipsisMarker.data
        ∧ (computeSummary "hello" 3).length = 3 + ellipsisMarker.length
        ∧ List.IsPrefix (("hello" : String).data.take 3) ("hello" : String).data))
    ∧ (("x" : String) ≠ "" ∧ computeSummary "x" 0 = ellipsisMarker) :=
  ⟨⟨by decide, (computeSummary_spec "hi" 5).1 (by decide)⟩,
    ⟨by decide, (computeSummary_spec "hello" 3).2.1 (by decide)⟩,
    ⟨by decide, (computeSummary_spec "x" 0).2.2.1 (by decide)⟩⟩

/-- C10: On a validation failure of create or update, the title and body
echoed back in the 400 form view are the normalized values — the trimmed
string for string input and the empty string for absent or non-string input
— not the user's original untrimmed raw input. -/
theorem failure_echoes_normalized_values (st : Store) (id : Nat) (tv bv : RawValue) :
    (∀ s, coerceInput (RawValue.str s) = jsTrim s)
    ∧ coerceInput RawValue.absent = ""
    ∧ coerceInput RawValue.nonString = ""
    ∧ (validateCreate (coerceInput tv) (coerceInput bv) ≠ [] →
        (createPost st tv bv).2 = Response.renderNew 400
          (validateCreate (coerceInput tv) (coerceInput bv))
          (coerceInput tv) (coerceInput bv))
    ∧ (validateUpdate (coerceInput tv) (coerceInput bv) ≠ [] →
        (updatePost st id tv bv).2 = Response.renderEdit 400
          (validateUpdate (coerceInput tv) (coerceInput bv))
          id (coerceInput tv) (coerceInput bv)) := by
  refine ⟨fun s => rfl, rfl, rfl, ?_, ?_⟩
  · intro h
    have he : createPost st tv bv =
        (st, Response.renderNew 400
          (validateCreate (coerceInput tv) (coerceInput bv))
          (coerceInput tv) (coerceInput bv)) :=
      createPostWith_invalid st _ _ h
    rw [he]
  · intro h
    have he : updatePost st id tv bv =
        (st, Response.renderEdit 400
          (validateUpdate (coerceInput tv) (coerceInput bv))
          id (coerceInput tv) (coerceInput bv)) :=
      updatePostWith_invalid st id _ _ h
    rw [he]

/-- Witness for C10: a whitespace-only title with a body needing trimming —
the echoed body is the trimmed "kept", not the raw "  kept  ". -/
theorem failure_echoes_normalized_values_witness :
    coerceInput (RawValue.str "  kept  ") = "kept"
    ∧ validateCreate (coerceInput (RawValue.str "   "))
        (coerceInput (RawValue.str "  kept  ")) ≠ []
    ∧ (createPost sampleStore (RawValue.str "   ") (RawValue.str "  kept  ")).2 =
        Response.renderNew 400
          (validateCreate (coerceInput (RawValue.str "   "))
            (coerceInput (RawValue.str "  kept  ")))
          (coerceInput (RawValue.str "   "))
          (coerceInput (RawValue.str "  kept  "))
    ∧ (updatePost sampleStore 0 (RawValue.str "   ") (RawValue.str "  kept  ")).2 =
        Response.renderEdit 400
          (validateUpdate (coerceInput (RawValue.str "   "))
            (coerceInput (RawValue.str "  kept  ")))
          0 (coerceInput (RawValue.str "   "))
          (coerceInput (RawValue.str "  kept  ")) :=
  ⟨by decide, by decide,
    (failure_echoes_normalized_values sampleStore 0 (RawValue.str "   ")
      (RawValue.str "  kept  ")).2.2.2.1 (by decide),
    (failure_echoes_normalized_values sampleStore 0 (RawValue.str "   ")
      (RawValue.str "  kept  ")).2.2.2.2 (by decide)⟩

end Crud
